import Mathlib

/-!
Shallow embedding of the CryoCon temperature-controller driver
(src/cryocon/cryocon.py) and verification of its specification claims.

Conventions of the embedding:
* Python strings are Lean `String` / `List Char`; machine floats are modelled
  by `ℚ` (the driver only compares and subtracts them); timestamps returned by
  `time.time()` are modelled by `ℚ`.
* Fallible Python code (raising exceptions) is modelled with `Except Err` /
  `Option`; the `Err` constructors name the error taxonomy of the spec, the
  comments give the concrete Python exception raised by the source.
* The transport collaborator (`self._conn`) is a parameter: either a reply
  function `String → String` or a `TransportResult` describing the outcome of
  the one I/O operation a dispatch performs.
-/

/-- Error outcomes; each constructor is tagged with the Python exception the
source raises in that situation. -/
inductive Err
  /-- Python ValueError/unpacking error inside a decode function. -/
  | parseError
  /-- Python TypeError (e.g. arithmetic on None). -/
  | typeError
  /-- CryoConError: loop must be in manual mode to set output power. -/
  | invalidState
  /-- CryoConError: written power differs from the readback. -/
  | readbackMismatch
  /-- CryoConError: command not acknowledged (NACK reply). -/
  | protocolRejected
  /-- IndexError: can only set range for loop 1. -/
  | unsupportedOperation
  /-- ValueError: invalid loop range / invalid date. -/
  | invalidArgument
  /-- AssertionError from a failed assert statement. -/
  | assertionError
  deriving DecidableEq, Repr

/-- Module constant OUT_OF_RANGE of the source. -/
def OUT_OF_RANGE : String := "_______"

/-- Module constant OUT_OF_LIMIT of the source. -/
def OUT_OF_LIMIT : String := "......."

/-- Module constant NA of the source. -/
def NA : String := "N/A"

/-- Module constant NACK of the source. -/
def NACK : String := "NACK"

/-- Module constant DELTA_RB = 0.0000001 of the source (read-back tolerance). -/
def DELTA_RB : ℚ := 1 / 10000000

/-- Module constant RANGES of the source. -/
def RANGES : List String := ["HI", "MID", "LOW"]

/-- Decimal digit test on a character (ASCII 48..57), used by the models of
the Python numeral parsers. -/
def isDigitC (c : Char) : Bool := 48 ≤ c.toNat && c.toNat ≤ 57

/-- Value of a big-endian list of decimal digit characters. -/
def digitsToNat (l : List Char) : ℕ :=
  l.foldl (fun a c => 10 * a + (c.toNat - 48)) 0

/-- Models Python int(text) on the subset of its input grammar the driver can
meet: an optional sign followed by decimal digits (whitespace, underscores and
non-ASCII digits are out of scope). Returns none where int() raises
ValueError. -/
def pyInt (l : List Char) : Option ℤ :=
  match l with
  | [] => none
  | c :: rest =>
    if c == '-' then
      if !rest.isEmpty && rest.all isDigitC then some (-(digitsToNat rest : ℤ)) else none
    else if c == '+' then
      if !rest.isEmpty && rest.all isDigitC then some ((digitsToNat rest : ℤ)) else none
    else if (c :: rest).all isDigitC then some ((digitsToNat (c :: rest) : ℤ)) else none

/-- Unsigned core of the Python float(text) model: decimal digits with an
optional fractional part, at least one digit present. -/
def pyFloatCore (l : List Char) : Option ℚ :=
  let ip := l.takeWhile isDigitC
  match l.dropWhile isDigitC with
  | [] => if ip.isEmpty then none else some ((digitsToNat ip : ℚ))
  | c :: fp =>
    if c == '.' && fp.all isDigitC && !(ip.isEmpty && fp.isEmpty) then
      some ((digitsToNat ip : ℚ) + (digitsToNat fp : ℚ) / (10 : ℚ) ^ fp.length)
    else none

/-- Models Python float(text) on the subset of its grammar the driver can
meet: optional sign, digits, optional fractional part (exponents, inf/nan and
whitespace are out of scope). Returns none where float() raises ValueError. -/
def pyFloat (l : List Char) : Option ℚ :=
  match l with
  | [] => none
  | c :: rest =>
    if c == '-' then Option.map (fun q => -q) (pyFloatCore rest)
    else if c == '+' then pyFloatCore rest
    else pyFloatCore l

/-- Source function to_int: sentinel replies decode to None, otherwise
int(text); a ValueError from int() is the ParseError of the spec. -/
def to_int (text : String) : Except Err (Option ℤ) :=
  if text = OUT_OF_LIMIT ∨ text = OUT_OF_RANGE ∨ text = NA then Except.ok none
  else
    match pyInt text.data with
    | some n => Except.ok (some n)
    | none => Except.error Err.parseError

/-- Source function to_float: sentinel replies decode to None, otherwise
float(text); a ValueError from float() is the ParseError of the spec. -/
def to_float (text : String) : Except Err (Option ℚ) :=
  if text = OUT_OF_LIMIT ∨ text = OUT_OF_RANGE ∨ text = NA then Except.ok none
  else
    match pyFloat text.data with
    | some q => Except.ok (some q)
    | none => Except.error Err.parseError

/-- Whitespace test matching the default character set of Python str.strip:
space and the ASCII control characters 9..13. -/
def isSpaceC (c : Char) : Bool := c.toNat = 32 || (9 ≤ c.toNat && c.toNat ≤ 13)

/-- Models Python str.strip() with no argument: remove leading and trailing
whitespace. -/
def pyStripWs (l : List Char) : List Char :=
  ((l.dropWhile isSpaceC).reverse.dropWhile isSpaceC).reverse

/-- String form of pyStripWs. -/
def stripWs (s : String) : String := String.mk (pyStripWs s.data)

/-- Models Python sep.join(parts) for a one-character separator. -/
def pyJoin (sep : Char) : List (List Char) → List Char
  | [] => []
  | [p] => p
  | p :: rest => p ++ sep :: pyJoin sep rest

/-- Models Python str.strip(c): remove every leading and trailing occurrence
of the character c. -/
def pyStrip (c : Char) (l : List Char) : List Char :=
  ((l.dropWhile (fun x => x = c)).reverse.dropWhile (fun x => x = c)).reverse

/-- Models Python str.split(sep) for a one-character separator: the list of
(possibly empty) chunks between occurrences of sep. -/
def pySplit (sep : Char) : List Char → List (List Char)
  | [] => [[]]
  | c :: rest =>
    match pySplit sep rest with
    | [] => [[c]]
    | g :: gs => if c = sep then [] :: g :: gs else (c :: g) :: gs

/-- Models Python str.endswith for the one-character suffix the dispatcher
tests: the last character equals it. -/
def endsWithChar (c : Char) (s : String) : Bool := s.data.getLast? == some c

/-- ASCII upper-casing of one character. -/
def upperChar (c : Char) : Char :=
  if 97 ≤ c.toNat ∧ c.toNat ≤ 122 then Char.ofNat (c.toNat - 32) else c

/-- Models Python str.upper() on the ASCII range the driver meets. -/
def pyUpper (s : String) : String := String.mk (s.data.map upperChar)

/-- Decidable equality on Except results, for evaluating models at concrete
inputs. -/
instance {ε α : Type} [DecidableEq ε] [DecidableEq α] : DecidableEq (Except ε α) :=
  fun a b =>
    match a, b with
    | Except.ok x, Except.ok y =>
      if h : x = y then Decidable.isTrue (congrArg Except.ok h)
      else Decidable.isFalse (fun hh => h (Except.ok.inj hh))
    | Except.error x, Except.error y =>
      if h : x = y then Decidable.isTrue (congrArg Except.error h)
      else Decidable.isFalse (fun hh => h (Except.error.inj hh))
    | Except.ok _, Except.error _ => Decidable.isFalse (fun hh => Except.noConfusion hh)
    | Except.error _, Except.ok _ => Decidable.isFalse (fun hh => Except.noConfusion hh)

/-! ## Dispatcher (CryoCon._ask) -/

/-- Mutable dispatcher state self._last_comm_error = (error, timestamp);
connection errors (Python OSError instances) are identified by a ℕ token. -/
structure CommState where
  lastErr : Option ℕ
  lastTs : ℚ
  deriving DecidableEq, Repr

/-- Behaviour of the transport collaborator for the single I/O operation one
dispatch performs: it yields a raw reply line (ignored for writes), raises a
connection-level OSError, or raises some other exception. -/
inductive TransportResult
  | line (s : String)
  | osError (e : ℕ)
  | otherError
  deriving DecidableEq, Repr

/-- Outcome of one CryoCon._ask call. -/
inductive AskOutcome
  /-- Normal return: the stripped reply for a query, none for a write. -/
  | reply (r : Option String)
  /-- Cooldown short-circuit: re-raise of the stored error before touching the
  transport (the source executes raise last_err; a stored none would be a
  Python TypeError, which never happens with epoch timestamps). -/
  | raisedStored (e : Option ℕ)
  /-- OSError from the transport, recorded and propagated. -/
  | raisedComm (e : ℕ)
  /-- CryoConError raised on a NACK reply. -/
  | raisedNack
  /-- Any other exception from inside the try block, propagated. -/
  | raisedOther
  deriving DecidableEq, Repr

/-- One CryoCon._ask dispatch. period is comm_error_retry_period (3 in the
source), now the time.time() value at entry, errNow the time.time() value
taken in the except OSError branch; tr describes the behaviour of the
transport for this call. Returns (outcome, new state, transport invoked?). -/
def ask (period : ℚ) (st : CommState) (now errNow : ℚ) (tr : TransportResult)
    (cmd : String) : AskOutcome × CommState × Bool :=
  if now < st.lastTs + period then (AskOutcome.raisedStored st.lastErr, st, false)
  else
    match tr with
    | TransportResult.osError e =>
      (AskOutcome.raisedComm e, CommState.mk (some e) errNow, true)
    | TransportResult.otherError =>
      (AskOutcome.raisedOther, CommState.mk none 0, true)
    | TransportResult.line s =>
      if endsWithChar '?' cmd then
        let r := stripWs s
        if r = NACK then (AskOutcome.raisedNack, CommState.mk none 0, true)
        else (AskOutcome.reply (some r), CommState.mk none 0, true)
      else (AskOutcome.reply none, CommState.mk none 0, true)

/-- CryoCon._ask specialised to a healthy dispatcher (no cooldown pending,
transport answering), as the entity facades use it: the raw reply is
stripped and a NACK reply raises CryoConError. -/
def askReply (tr : String → String) (cmd : String) : Except Err String :=
  let r := stripWs (tr cmd)
  if r = NACK then Except.error Err.protocolRejected else Except.ok r

/-! ## Batch (CryoCon.Group) -/

/-- Initial accumulated command lines of a fresh Group (self.cmds = ['']). -/
def Group.initCmds : List String := [""]

/-- Effect of CryoCon.Group.append on the accumulated command lines: read the
last line; if its length plus the command length exceeds 250 start a new
empty line; then (the source's `if self.cmds` guard, true whenever the list is
nonempty) add the ';' separator and the command, writing the result back into
the last slot. -/
def Group.appendLine (cmds0 : List String) (cmd : String) : List String :=
  let line := cmds0.getLastD ""
  let p : List String × String :=
    if 250 < line.length + cmd.length then (cmds0 ++ [""], "") else (cmds0, line)
  let line1 := (if p.1.isEmpty then p.2 else p.2 ++ ";") ++ cmd
  p.1.dropLast ++ [line1]

/-- Accumulated lines after appending a whole list of commands to a fresh
Group. -/
def Group.linesAfter (cmds : List String) : List String :=
  cmds.foldl Group.appendLine Group.initCmds

/-- Decode fan-out of CryoCon.Group.query: the per-line _ask replies are
joined with ';', the combined text is split on ';', each piece stripped, and
the stored decode functions are applied positionally (Python zip truncates at
the shorter sequence). -/
def Group.queryResults {α : Type} (funcs : List (String → α))
    (lineReplies : List String) : List α :=
  let reply := pyJoin ';' (lineReplies.map String.data)
  let pieces := (pySplit ';' reply).map (fun m => String.mk (pyStripWs m))
  List.zipWith (fun f t => f t) funcs pieces

/-- The dispatch loop of CryoCon.Group.query: one _ask per accumulated line,
threading the dispatcher state; returns each call's (outcome, transport
invoked?) pair. The same clock values now/errNow are reused for every call. -/
def Group.queryRun (period : ℚ) (now errNow : ℚ) (tr : String → TransportResult) :
    CommState → List String → List (AskOutcome × Bool)
  | _, [] => []
  | st, cmd :: rest =>
    let r := ask period st now errNow (tr cmd) cmd
    (r.1, r.2.2) :: Group.queryRun period now errNow tr r.2.1 rest

/-! ## Entity facades -/

/-- Channel.clear_alarm: the dispatched command is a fixed literal; the
channel's own identifier is not substituted into it. -/
def Channel.clear_alarm (_ch : Char) : String := ":INPUT A:ALAR:CLE"

/-- Loop._query command formatting: ':LOOP {id}:{cmd}?'. -/
def Loop.queryCmd (id : ℤ) (cmd : String) : String :=
  ":LOOP " ++ toString id ++ ":" ++ cmd ++ "?"

/-- Loop.output_power setter: require mode MAN (read via the TYP query),
dispatch the power (through Loop._query, hence with a trailing question
mark), read the power back and compare against DELTA_RB. Returns the outcome
and the dispatched commands in order. The textual rendering of the power
value uses toString in place of Python str formatting; no claim depends on
that text. -/
def Loop.setOutputPower (tr : String → String) (id : ℤ) (power : ℚ) :
    Except Err Unit × List String :=
  let tCmd := Loop.queryCmd id "TYP"
  match askReply tr tCmd with
  | Except.error e => (Except.error e, [tCmd])
  | Except.ok t =>
    if t ≠ "MAN" then (Except.error Err.invalidState, [tCmd])
    else
      let pCmd := Loop.queryCmd id ("OUTPWR " ++ toString power)
      match askReply tr pCmd with
      | Except.error e => (Except.error e, [tCmd, pCmd])
      | Except.ok _ =>
        let rCmd := Loop.queryCmd id "OUTPWR"
        match askReply tr rCmd with
        | Except.error e => (Except.error e, [tCmd, pCmd, rCmd])
        | Except.ok rText =>
          match to_float rText with
          | Except.error e => (Except.error e, [tCmd, pCmd, rCmd])
          | Except.ok none => (Except.error Err.typeError, [tCmd, pCmd, rCmd])
          | Except.ok (some rb) =>
            if DELTA_RB < |rb - power| then
              (Except.error Err.readbackMismatch, [tCmd, pCmd, rCmd])
            else (Except.ok (), [tCmd, pCmd, rCmd])

/-- Loop.range setter: only loop 1 may set the range (IndexError otherwise),
the name must be one of RANGES up to upper-casing (ValueError otherwise), and
the dispatch goes through Loop._query, which appends a question mark. -/
def Loop.setRange (tr : String → String) (id : ℤ) (rng : String) :
    Except Err Unit × List String :=
  if id ≠ 1 then (Except.error Err.unsupportedOperation, [])
  else if ¬ pyUpper rng ∈ RANGES then (Except.error Err.invalidArgument, [])
  else
    let cmd := Loop.queryCmd id ("RANGE " ++ rng)
    match askReply tr cmd with
    | Except.error e => (Except.error e, [cmd])
    | Except.ok _ => (Except.ok (), [cmd])

/-! ## Controller (CryoCon) attribute setters -/

/-- Python's or on numbers: the first operand unless it is falsy (zero). The
display_filter_time assert tuple in the source contains the expression
32 or 64. -/
def pyOr (a b : ℚ) : ℚ := if a = 0 then b else a

/-- The tuple the source's display_filter_time setter asserts membership in:
(0.5, 1, 2, 4, 8, 16, 32 or 64). -/
def displayFilterAllowed : List ℚ := [0.5, 1, 2, 4, 8, 16, pyOr 32 64]

/-- CryoCon.display_filter_time setter: assert the value is in the allowed
tuple (AssertionError otherwise), then dispatch ':SYSTEM:DISTC {value}'. The
textual rendering of the value uses toString in place of Python str
formatting. -/
def CryoCon.setDisplayFilterTime (value : ℚ) : Except Err String :=
  if value ∈ displayFilterAllowed then
    Except.ok (":SYSTEM:DISTC " ++ toString value)
  else Except.error Err.assertionError

/-! ## Date codec (to_date and the CryoCon.date setter) -/

/-- The double-quote character (ASCII 34). -/
def quoteChar : Char := Char.ofNat 34

/-- Decimal digit characters of n, most significant first, by repeated
division; the first argument is fuel (any bound ≥ n works). -/
def natCharsAux : ℕ → ℕ → List Char
  | 0, _ => []
  | _, 0 => []
  | fuel + 1, n + 1 =>
    natCharsAux fuel ((n + 1) / 10) ++ [Nat.digitChar ((n + 1) % 10)]

/-- Decimal digit characters of n, most significant first (Python str(n) for
a nonnegative integer). -/
def natChars (n : ℕ) : List Char :=
  if n = 0 then [Nat.digitChar 0] else natCharsAux n n

/-- Zero-padding to width w, as the strftime field formats %m/%d (w = 2) and
%Y (w = 4) render numbers. -/
def padChars (w : ℕ) (n : ℕ) : List Char :=
  List.replicate (w - (natChars n).length) (Nat.digitChar 0) ++ natChars n

/-- A calendar date as datetime.date stores it. -/
structure PyDate where
  year : ℕ
  month : ℕ
  day : ℕ
  deriving DecidableEq, Repr

/-- Gregorian leap-year rule, as datetime uses it. -/
def isLeapYear (y : ℕ) : Bool := y % 4 == 0 && (y % 100 != 0 || y % 400 == 0)

/-- Days in a month, as datetime uses it. -/
def daysInMonth (y m : ℕ) : ℕ :=
  if m = 2 then (if isLeapYear y then 29 else 28)
  else if m = 4 ∨ m = 6 ∨ m = 9 ∨ m = 11 then 30 else 31

/-- Models the datetime.date constructor: validates MINYEAR ≤ year ≤ MAXYEAR,
1 ≤ month ≤ 12 and 1 ≤ day ≤ days-in-month, raising ValueError otherwise. -/
def mkDate (year month day : ℤ) : Except Err PyDate :=
  if 1 ≤ year ∧ year ≤ 9999 ∧ 1 ≤ month ∧ month ≤ 12 ∧ 1 ≤ day ∧
      day ≤ (daysInMonth year.toNat month.toNat : ℤ) then
    Except.ok (PyDate.mk year.toNat month.toNat day.toNat)
  else Except.error Err.invalidArgument

/-- Source function to_date: strip the double quotes, split on '/', parse the
three fields as month, day, year with int(), and build the date. Any
malformed field (wrong chunk count or a non-numeric chunk) is the ParseError
of the spec. -/
def to_date (text : String) : Except Err PyDate :=
  match (pySplit '/' (pyStrip quoteChar text.data)).map pyInt with
  | [some month, some day, some year] => mkDate year month day
  | _ => Except.error Err.parseError

/-- The encoding the CryoCon.date setter applies to a datetime.date value:
date.strftime of the quoted pattern month/day/year, i.e. the wire text
"MM/DD/YYYY" including the double quotes (the %Y padding is
platform-dependent for years below 1000; zero-padding is used here, and the
round trip does not depend on it since int() ignores leading zeros). -/
def strftimeDate (d : PyDate) : String :=
  String.mk ([quoteChar] ++ padChars 2 d.month ++ ['/'] ++ padChars 2 d.day ++
    ['/'] ++ padChars 4 d.year ++ [quoteChar])

/-- A date value datetime.date can actually hold (what the constructor
validates). -/
def validDate (d : PyDate) : Prop :=
  1 ≤ d.year ∧ d.year ≤ 9999 ∧ 1 ≤ d.month ∧ d.month ≤ 12 ∧ 1 ≤ d.day ∧
    d.day ≤ daysInMonth d.year d.month

instance (d : PyDate) : Decidable (validDate d) := by
  unfold validDate
  infer_instance

/-! ## Helper lemmas -/

/-- Positional access of zipWith when both lists have an element at i. -/
theorem zipWith_getElem?_some {α β γ : Type} (f : α → β → γ) :
    ∀ (as : List α) (bs : List β) (i : ℕ) (a : α) (b : β),
      as[i]? = some a → bs[i]? = some b → (List.zipWith f as bs)[i]? = some (f a b) := by
  intro as
  induction as with
  | nil => intro bs i a b ha; simp at ha
  | cons x xs ih =>
    intro bs i a b ha hb
    cases bs with
    | nil => simp at hb
    | cons y ys =>
      cases i with
      | zero =>
        simp only [List.getElem?_cons_zero, Option.some.injEq] at ha hb
        simp [List.zipWith, ha, hb]
      | succ n =>
        simp only [List.getElem?_cons_succ] at ha hb ⊢
        simpa using ih ys n a b ha hb

/-! ## C7: display filter time allowed set -/

/-- C7: the display_filter_time setter accepts exactly the members of the
tuple its assert names, and because the source writes the tuple as
(0.5, 1, 2, 4, 8, 16, 32 or 64) the value 64 is NOT accepted: it fails the
assert (AssertionError) even though the claim, and the instrument manual,
list it as allowed. The other seven documented values are accepted; a value
outside the set such as 3 is rejected before dispatch. -/
theorem display_filter_time_drops_64 :
    CryoCon.setDisplayFilterTime 64 = Except.error Err.assertionError ∧
    (CryoCon.setDisplayFilterTime 0.5).isOk = true ∧
    (CryoCon.setDisplayFilterTime 1).isOk = true ∧
    (CryoCon.setDisplayFilterTime 2).isOk = true ∧
    (CryoCon.setDisplayFilterTime 4).isOk = true ∧
    (CryoCon.setDisplayFilterTime 8).isOk = true ∧
    (CryoCon.setDisplayFilterTime 16).isOk = true ∧
    (CryoCon.setDisplayFilterTime 32).isOk = true ∧
    CryoCon.setDisplayFilterTime 3 = Except.error Err.assertionError := by
  refine ⟨?_, ?_, ?_, ?_, ?_, ?_, ?_, ?_, ?_⟩ <;>
    · simp only [CryoCon.setDisplayFilterTime, displayFilterAllowed, pyOr]
      norm_num
      try rfl

/-! ## C10: clear_alarm uses a fixed channel identifier -/

/-- C10: Channel.clear_alarm dispatches the literal command
:INPUT A:ALAR:CLE for every channel; the channel's own identifier is not
substituted (clear_alarm on channel B does not produce :INPUT B:ALAR:CLE). -/
theorem clear_alarm_fixed_channel :
    (∀ ch : Char, Channel.clear_alarm ch = ":INPUT A:ALAR:CLE") ∧
    Channel.clear_alarm 'B' ≠ ":INPUT B:ALAR:CLE" :=
  ⟨fun _ => rfl, by decide⟩

/-! ## C4: an empty batch still touches the transport -/

/-- C4 (code evaluation at the failing input): a Group opened and closed with
zero appends still holds the initial line list [''], so Group.query performs
one _ask of the empty command. With a fresh dispatcher state and an epoch
clock, that dispatch invokes the transport (boolean true: the empty command
is written, as a lone line terminator) and returns no reply — after which the
source even crashes joining None. The claim's promised zero transport
invocations does not hold: the invocation list has length one, not zero. -/
theorem empty_batch_invokes_transport :
    Group.queryRun 3 100 100 (fun _ => TransportResult.line "")
        (CommState.mk none 0) Group.initCmds = [(AskOutcome.reply none, true)] ∧
    (Group.queryRun 3 100 100 (fun _ => TransportResult.line "")
        (CommState.mk none 0) Group.initCmds).length ≠ 0 := by
  have h : Group.queryRun 3 100 100 (fun _ => TransportResult.line "")
      (CommState.mk none 0) Group.initCmds = [(AskOutcome.reply none, true)] := by
    simp [Group.queryRun, Group.initCmds, ask, endsWithChar]
    norm_num
  exact ⟨h, by rw [h]; simp⟩

/-! ## C6: range setter -/

/-- C6 (amended): setting the range on a loop whose identifier is not 1
raises UnsupportedOperation (IndexError) before any dispatch; a range name
whose upper-casing is not in RANGES raises InvalidArgument (ValueError)
before any dispatch; and setRange LOW on loop 1 dispatches exactly the wire
command :LOOP 1:RANGE LOW? — with a trailing question mark, because the
setter routes the command through Loop._query, which appends one (the
claim's version without the question mark is refuted by the
counterexample). -/
theorem set_range_spec :
    (∀ (tr : String → String) (id : ℤ) (rng : String), id ≠ 1 →
        Loop.setRange tr id rng = (Except.error Err.unsupportedOperation, [])) ∧
    (∀ (tr : String → String) (rng : String), ¬ pyUpper rng ∈ RANGES →
        Loop.setRange tr 1 rng = (Except.error Err.invalidArgument, [])) ∧
    (∀ tr : String → String, (Loop.setRange tr 1 "LOW").2 = [":LOOP 1:RANGE LOW?"]) := by
  refine ⟨?_, ?_, ?_⟩
  · intro tr id rng hid
    simp [Loop.setRange, hid]
  · intro tr rng hr
    simp [Loop.setRange, hr]
  · intro tr
    have hup : pyUpper "LOW" ∈ RANGES := by decide
    have hcmd : Loop.queryCmd 1 ("RANGE " ++ "LOW") = ":LOOP 1:RANGE LOW?" := by decide
    simp only [Loop.setRange, if_neg (by decide : ¬ (1 : ℤ) ≠ 1), hup, not_true_eq_false,
      if_false, hcmd]
    cases h : askReply tr ":LOOP 1:RANGE LOW?" <;> simp

/-- C6 witness: the three parts of set_range_spec applied at concrete
inputs. -/
theorem set_range_spec_witness :
    Loop.setRange (fun _ => "") 2 "LOW" = (Except.error Err.unsupportedOperation, []) ∧
    Loop.setRange (fun _ => "") 1 "XXL" = (Except.error Err.invalidArgument, []) ∧
    (Loop.setRange (fun _ => "") 1 "LOW").2 = [":LOOP 1:RANGE LOW?"] :=
  ⟨set_range_spec.1 (fun _ => "") 2 "LOW" (by decide),
   set_range_spec.2.1 (fun _ => "") "XXL" (by decide),
   set_range_spec.2.2 (fun _ => "")⟩

/-- C6 counterexample: on loop 1, setRange LOW does not dispatch the claimed
wire command :LOOP 1:RANGE LOW; the dispatched command carries a trailing
question mark. -/
theorem set_range_counterexample :
    (Loop.setRange (fun _ => "") 1 "LOW").2 ≠ [":LOOP 1:RANGE LOW"] ∧
    (Loop.setRange (fun _ => "") 1 "LOW").2 = [":LOOP 1:RANGE LOW?"] := by decide

/-! ## C8: sentinel handling in the numeric decoders -/

/-- C8: to_int and to_float map each of the three sentinel reply texts to an
absent value (None) without raising; on any other text they raise ParseError
exactly when the Python numeral parser rejects it, and return the parsed
number when it accepts it. -/
theorem numeric_decoders_sentinels :
    (to_int OUT_OF_RANGE = Except.ok none ∧ to_int OUT_OF_LIMIT = Except.ok none ∧
     to_int NA = Except.ok none ∧ to_float OUT_OF_RANGE = Except.ok none ∧
     to_float OUT_OF_LIMIT = Except.ok none ∧ to_float NA = Except.ok none) ∧
    ∀ t : String, ¬ (t = OUT_OF_LIMIT ∨ t = OUT_OF_RANGE ∨ t = NA) →
      ((pyInt t.data = none → to_int t = Except.error Err.parseError) ∧
       (∀ n : ℤ, pyInt t.data = some n → to_int t = Except.ok (some n)) ∧
       (pyFloat t.data = none → to_float t = Except.error Err.parseError) ∧
       (∀ q : ℚ, pyFloat t.data = some q → to_float t = Except.ok (some q))) := by
  constructor
  · refine ⟨?_, ?_, ?_, ?_, ?_, ?_⟩ <;> decide
  · intro t ht
    refine ⟨?_, ?_, ?_, ?_⟩
    · intro h; simp [to_int, ht, h]
    · intro n h; simp [to_int, ht, h]
    · intro h; simp [to_float, ht, h]
    · intro q h; simp [to_float, ht, h]

/-- C8 witness: the non-sentinel cases of numeric_decoders_sentinels at the
concrete texts abc (rejected by both parsers) and 42 (parsed as an
integer). -/
theorem numeric_decoders_sentinels_witness :
    to_int "abc" = Except.error Err.parseError ∧
    to_float "abc" = Except.error Err.parseError ∧
    to_int "42" = Except.ok (some 42) :=
  ⟨(numeric_decoders_sentinels.2 "abc" (by decide)).1 (by decide),
   (numeric_decoders_sentinels.2 "abc" (by decide)).2.2.1 (by decide),
   (numeric_decoders_sentinels.2 "42" (by decide)).2.1 42 (by decide)⟩

/-! ## C5: output power setter -/

/-- C5: the output_power setter first reads the loop mode (the TYP query);
when the stripped reply is not MAN it raises InvalidState having dispatched
nothing but that mode query — in particular the power is never written. When
the mode is MAN it dispatches the power (through Loop._query, so as the
command :LOOP id:OUTPWR power?) and then the readback query, and, when the
readback decodes to a number rb, raises ReadbackMismatch exactly when
|rb − written| exceeds DELTA_RB = 1e-7, succeeding exactly when it is within
the tolerance. -/
theorem set_output_power_spec (tr : String → String) (id : ℤ) (power : ℚ) :
    (∀ t : String, askReply tr (Loop.queryCmd id "TYP") = Except.ok t → t ≠ "MAN" →
        Loop.setOutputPower tr id power =
          (Except.error Err.invalidState, [Loop.queryCmd id "TYP"])) ∧
    (askReply tr (Loop.queryCmd id "TYP") = Except.ok "MAN" →
     ∀ p : String, askReply tr (Loop.queryCmd id ("OUTPWR " ++ toString power)) = Except.ok p →
     ∀ rt : String, askReply tr (Loop.queryCmd id "OUTPWR") = Except.ok rt →
     ∀ rb : ℚ, to_float rt = Except.ok (some rb) →
       (Loop.setOutputPower tr id power).2 =
         [Loop.queryCmd id "TYP", Loop.queryCmd id ("OUTPWR " ++ toString power),
          Loop.queryCmd id "OUTPWR"] ∧
       ((Loop.setOutputPower tr id power).1 = Except.error Err.readbackMismatch ↔
         DELTA_RB < |rb - power|) ∧
       ((Loop.setOutputPower tr id power).1 = Except.ok () ↔ |rb - power| ≤ DELTA_RB)) := by
  constructor
  · intro t ht hman
    simp [Loop.setOutputPower, ht, hman]
  · intro hman p hp rt hrt rb hrb
    have hexp : Loop.setOutputPower tr id power =
        (if DELTA_RB < |rb - power| then Except.error Err.readbackMismatch else Except.ok (),
         [Loop.queryCmd id "TYP", Loop.queryCmd id ("OUTPWR " ++ toString power),
          Loop.queryCmd id "OUTPWR"]) := by
      simp only [Loop.setOutputPower, hman, ne_eq, not_true_eq_false, if_false, hp, hrt, hrb]
      split_ifs <;> rfl
    rw [hexp]
    refine ⟨rfl, ?_, ?_⟩
    · by_cases hc : DELTA_RB < |rb - power|
      · simp [hc]
      · simp [hc]
    · by_cases hc : DELTA_RB < |rb - power|
      · simp [hc, hc.not_le]
      · simp [hc, not_lt.mp hc]

/-- C5 witness: set_output_power_spec applied to concrete transports — a loop
in PID mode rejects the write with InvalidState after only the mode query; in
MAN mode a readback of 5.001 against a written 5 raises ReadbackMismatch,
while a readback of 5.0 succeeds. -/
theorem set_output_power_spec_witness :
    Loop.setOutputPower (fun _ => "PID") 1 5 =
      (Except.error Err.invalidState, [Loop.queryCmd 1 "TYP"]) ∧
    (Loop.setOutputPower
        (fun c => if c = ":LOOP 1:TYP?" then "MAN"
                  else if c = ":LOOP 1:OUTPWR?" then "5.001" else "ok") 1 5).1 =
      Except.error Err.readbackMismatch ∧
    (Loop.setOutputPower
        (fun c => if c = ":LOOP 1:TYP?" then "MAN"
                  else if c = ":LOOP 1:OUTPWR?" then "5.0" else "ok") 1 5).1 =
      Except.ok () := by
  refine ⟨?_, ?_, ?_⟩
  · exact (set_output_power_spec (fun _ => "PID") 1 5).1 "PID" (by decide) (by decide)
  · have h4 : to_float "5.001" = Except.ok (some (5001 / 1000)) := by
      simp [to_float, OUT_OF_LIMIT, OUT_OF_RANGE, NA, pyFloat, pyFloatCore, isDigitC,
        digitsToNat]
      norm_num
    exact ((set_output_power_spec _ 1 5).2 (by decide) "ok" (by decide) "5.001" (by decide)
      (5001 / 1000) h4).2.1.mpr
      (lt_of_lt_of_le (by norm_num [DELTA_RB]) (le_abs_self _))
  · have h4 : to_float "5.0" = Except.ok (some 5) := by
      simp [to_float, OUT_OF_LIMIT, OUT_OF_RANGE, NA, pyFloat, pyFloatCore, isDigitC,
        digitsToNat]
      try norm_num
    exact ((set_output_power_spec _ 1 5).2 (by decide) "ok" (by decide) "5.0" (by decide)
      5 h4).2.2.mpr (by norm_num [DELTA_RB])

/-! ## C1: communication-error cooldown -/

/-- C1: after a connection error e recorded at time T, every dispatch at a
time T2 with T ≤ T2 < T + 3 re-raises e without invoking the transport and
leaves the stored state unchanged; a dispatch at T2 ≥ T + 3 invokes the
transport; a dispatch that runs the transport and completes successfully
(query reply that is not NACK, or a plain write) or that fails on a NACK
resets the stored state to (None, 0), after which any dispatch at an epoch
time ≥ 3 invokes the transport immediately. -/
theorem ask_cooldown_policy :
    (∀ (e : ℕ) (T T2 errNow : ℚ) (tr : TransportResult) (cmd : String),
        T ≤ T2 → T2 < T + 3 →
        ask 3 (CommState.mk (some e) T) T2 errNow tr cmd =
          (AskOutcome.raisedStored (some e), CommState.mk (some e) T, false)) ∧
    (∀ (st : CommState) (T2 errNow : ℚ) (tr : TransportResult) (cmd : String),
        st.lastTs + 3 ≤ T2 → (ask 3 st T2 errNow tr cmd).2.2 = true) ∧
    (∀ (st : CommState) (T2 errNow : ℚ) (s : String) (cmd : String),
        st.lastTs + 3 ≤ T2 →
        ((endsWithChar '?' cmd = true → stripWs s ≠ NACK →
            ask 3 st T2 errNow (TransportResult.line s) cmd =
              (AskOutcome.reply (some (stripWs s)), CommState.mk none 0, true)) ∧
         (endsWithChar '?' cmd = true → stripWs s = NACK →
            ask 3 st T2 errNow (TransportResult.line s) cmd =
              (AskOutcome.raisedNack, CommState.mk none 0, true)) ∧
         (endsWithChar '?' cmd = false →
            ask 3 st T2 errNow (TransportResult.line s) cmd =
              (AskOutcome.reply none, CommState.mk none 0, true)))) ∧
    (∀ (T2 errNow : ℚ) (tr : TransportResult) (cmd : String),
        3 ≤ T2 → (ask 3 (CommState.mk none 0) T2 errNow tr cmd).2.2 = true) := by
  refine ⟨?_, ?_, ?_, ?_⟩
  · intro e T T2 errNow tr cmd _ h2
    have : T2 < (CommState.mk (some e) T).lastTs + 3 := h2
    simp [ask, this]
  · intro st T2 errNow tr cmd h
    have hnot : ¬ T2 < st.lastTs + 3 := not_lt.mpr h
    cases tr <;>
      · simp [ask, hnot]
        all_goals split_ifs <;> rfl
  · intro st T2 errNow s cmd h
    have hnot : ¬ T2 < st.lastTs + 3 := not_lt.mpr h
    refine ⟨?_, ?_, ?_⟩
    · intro hq hn; simp [ask, hnot, hq, hn]
    · intro hq hn; simp [ask, hnot, hq, hn]
    · intro hq; simp [ask, hnot, hq]
  · intro T2 errNow tr cmd h
    cases tr <;> simp [ask] <;> split_ifs <;> first | rfl | linarith

/-- C1 witness: ask_cooldown_policy applied at concrete times — a dispatch
one second after a stored error re-raises it without transport contact, a
dispatch three seconds after reaches the transport, a successful query clears
the stored state, and a dispatch on the cleared state at epoch time 100
reaches the transport. -/
theorem ask_cooldown_policy_witness :
    ask 3 (CommState.mk (some 5) 10) 11 12 (TransportResult.line "x") ":*IDN?" =
      (AskOutcome.raisedStored (some 5), CommState.mk (some 5) 10, false) ∧
    (ask 3 (CommState.mk (some 5) 10) 13 14 (TransportResult.line "x") ":*IDN?").2.2 = true ∧
    ask 3 (CommState.mk (some 5) 10) 13 14 (TransportResult.line " ok ") ":*IDN?" =
      (AskOutcome.reply (some (stripWs " ok ")), CommState.mk none 0, true) ∧
    (ask 3 (CommState.mk none 0) 100 100 (TransportResult.line "x") ":*IDN?").2.2 = true :=
  ⟨ask_cooldown_policy.1 5 10 11 12 (TransportResult.line "x") ":*IDN?"
      (by norm_num) (by norm_num),
   ask_cooldown_policy.2.1 (CommState.mk (some 5) 10) 13 14 (TransportResult.line "x")
      ":*IDN?" (by norm_num),
   (ask_cooldown_policy.2.2.1 (CommState.mk (some 5) 10) 13 14 " ok " ":*IDN?"
      (by norm_num)).1 (by decide) (by decide),
   ask_cooldown_policy.2.2.2 100 100 (TransportResult.line "x") ":*IDN?" (by norm_num)⟩

/-! ## C2: batched line length -/

/-- Rewrite of Group.appendLine when the length check trips: a new line is
appended, holding the separator and the command. -/
theorem appendLine_pos (cmds0 : List String) (cmd : String)
    (h : 250 < (cmds0.getLastD "").length + cmd.length) :
    Group.appendLine cmds0 cmd = cmds0 ++ [";" ++ cmd] := by
  simp only [Group.appendLine, if_pos h]
  have : (cmds0 ++ [""]).isEmpty = false := by
    cases cmds0 <;> rfl
  simp [this, List.dropLast_concat]

/-- Rewrite of Group.appendLine when the command still fits: the last line is
replaced by itself plus the separator and the command. -/
theorem appendLine_neg (cmds0 : List String) (cmd : String)
    (h : ¬ 250 < (cmds0.getLastD "").length + cmd.length) (hne : cmds0 ≠ []) :
    Group.appendLine cmds0 cmd =
      cmds0.dropLast ++ [cmds0.getLastD "" ++ ";" ++ cmd] := by
  have hemp : cmds0.isEmpty = false := by
    cases cmds0 with
    | nil => exact absurd rfl hne
    | cons a t => rfl
  simp only [Group.appendLine, if_neg h, hemp]
  simp

/-- One append keeps every accumulated line at 251 characters or less,
provided the appended command itself has at most 250. -/
theorem appendLine_length_le {cmds0 : List String} {cmd : String}
    (hcmd : cmd.length ≤ 250) (hall : ∀ x ∈ cmds0, x.length ≤ 251) :
    ∀ l ∈ Group.appendLine cmds0 cmd, l.length ≤ 251 := by
  by_cases h : 250 < (cmds0.getLastD "").length + cmd.length
  · rw [appendLine_pos cmds0 cmd h]
    intro l hl
    rcases List.mem_append.mp hl with hm | hm
    · exact hall l hm
    · rw [List.mem_singleton.mp hm]
      have hone : (";" : String).length = 1 := rfl
      rw [String.length_append, hone]
      omega
  · cases hne : cmds0 with
    | nil =>
      subst hne
      intro l hl
      have h2 : ¬ 250 < cmd.length := by simpa using h
      simp only [Group.appendLine, List.getLastD_nil] at hl
      simp [h2] at hl
      rw [hl]
      omega
    | cons a t =>
      rw [← hne]
      rw [appendLine_neg cmds0 cmd h (by rw [hne]; exact List.cons_ne_nil a t)]
      intro l hl
      rcases List.mem_append.mp hl with hm | hm
      · exact hall l (List.dropLast_subset cmds0 hm)
      · rw [List.mem_singleton.mp hm]
        have hone : (";" : String).length = 1 := rfl
        rw [String.length_append, String.length_append, hone]
        have hfit : (cmds0.getLastD "").length + cmd.length ≤ 250 := not_lt.mp h
        omega

/-- Folding appends preserves the 251-character bound on every line. -/
theorem foldl_appendLine_le :
    ∀ (cmds : List String) (st : List String),
      (∀ c ∈ cmds, c.length ≤ 250) → (∀ l ∈ st, l.length ≤ 251) →
      ∀ l ∈ cmds.foldl Group.appendLine st, l.length ≤ 251 := by
  intro cmds
  induction cmds with
  | nil => intro st _ hst l hl; exact hst l (by simpa using hl)
  | cons c rest ih =>
    intro st hc hst l hl
    rw [List.foldl_cons] at hl
    exact ih (Group.appendLine st c)
      (fun x hx => hc x (List.mem_cons_of_mem c hx))
      (appendLine_length_le (hc c (List.mem_cons_self c rest)) hst) l hl

/-- C2 (amended): the length check of Group.append compares the current line
plus the bare command against 250, not counting the ';' separator it then
adds, so the guarantee the accumulator actually provides is: if every
appended command is at most 250 characters, every assembled line is at most
251 characters (251 is reached, see the counterexample; the claimed bound of
250 is not kept). A new line is started exactly when the check trips. -/
theorem batch_line_length_bound :
    (∀ (cmds : List String), (∀ c ∈ cmds, c.length ≤ 250) →
        ∀ l ∈ Group.linesAfter cmds, l.length ≤ 251) ∧
    (∀ (cmds0 : List String) (cmd : String),
        250 < (cmds0.getLastD "").length + cmd.length →
        (Group.appendLine cmds0 cmd).length = cmds0.length + 1) := by
  constructor
  · intro cmds h
    refine foldl_appendLine_le cmds Group.initCmds h ?_
    intro l hl
    simp only [Group.initCmds, List.mem_singleton] at hl
    subst hl
    decide
  · intro cmds0 cmd h
    rw [appendLine_pos cmds0 cmd h]
    simp

set_option maxRecDepth 4000 in
/-- C2 witness: batch_line_length_bound applied to the command list [ab]
(whose single assembled line ;ab has 3 ≤ 251 characters) and to an append
whose length check trips, which adds a line. -/
theorem batch_line_length_bound_witness :
    (";ab").length ≤ 251 ∧
    (Group.appendLine [""] (String.mk (List.replicate 251 'a'))).length = 1 + 1 :=
  ⟨batch_line_length_bound.1 ["ab"] (by decide) ";ab" (by decide),
   batch_line_length_bound.2 [""] (String.mk (List.replicate 251 'a')) (by decide)⟩

set_option maxRecDepth 2000 in
/-- C2 counterexample: appending two commands of 124 and 125 characters —
both far below every conceivable limit — produces a single assembled line of
251 characters, because 124 + 1 (separator) + 1 (separator) + 125 = 251 and
the check 125 + 125 > 250 does not trip. The claimed invariant that no line
ever exceeds 250 characters is false. -/
theorem batch_line_length_counterexample :
    (String.mk (List.replicate 124 'a')).length = 124 ∧
    (String.mk (List.replicate 125 'a')).length = 125 ∧
    (Group.linesAfter
      [String.mk (List.replicate 124 'a'), String.mk (List.replicate 125 'a')]).map
        String.length = [251] := by decide

/-! ## C3: batch decode fan-out -/

/-- C3: for a batch session with the stored decode functions funcs and the
per-line transport replies, the decoded result list has exactly one entry per
appended operation provided the combined reply splits into at least that many
pieces, and the i-th result is the i-th decode function applied to the i-th
stripped piece of the combined reply — positionally, in append order. -/
theorem batch_query_positional {α : Type} (funcs : List (String → α))
    (lineReplies : List String) :
    (funcs.length ≤ (pySplit ';' (pyJoin ';' (lineReplies.map String.data))).length →
      (Group.queryResults funcs lineReplies).length = funcs.length) ∧
    (∀ (i : ℕ) (f : String → α) (m : List Char),
      funcs[i]? = some f →
      (pySplit ';' (pyJoin ';' (lineReplies.map String.data)))[i]? = some m →
      (Group.queryResults funcs lineReplies)[i]? = some (f (String.mk (pyStripWs m)))) := by
  constructor
  · intro h
    simp only [Group.queryResults]
    rw [List.length_zipWith, List.length_map]
    omega
  · intro i f m hf hm
    simp only [Group.queryResults]
    apply zipWith_getElem?_some _ _ _ _ f (String.mk (pyStripWs m)) hf
    rw [List.getElem?_map, hm]
    rfl

/-- C3 witness: batch_query_positional on two appended length-decoders and
one line reply containing two pieces — the results pair up positionally and
each piece is stripped before decoding. -/
theorem batch_query_positional_witness :
    (Group.queryResults [fun s => s.length, fun s => s.length] ["ab ; cdef"]).length = 2 ∧
    (Group.queryResults [fun s => s.length, fun s => s.length] ["ab ; cdef"])[1]? =
      some ((fun s : String => s.length) (String.mk (pyStripWs (" cdef").data))) :=
  ⟨(batch_query_positional [fun s => s.length, fun s => s.length] ["ab ; cdef"]).1
      (by decide),
   (batch_query_positional [fun s => s.length, fun s => s.length] ["ab ; cdef"]).2
      1 (fun s => s.length) (" cdef").data rfl (by decide)⟩

/-! ## C9: date round trip -/

/-- Character value of a decimal digit rendered by Nat.digitChar. -/
theorem digitChar_toNat (d : ℕ) (h : d < 10) : (Nat.digitChar d).toNat = 48 + d := by
  interval_cases d <;> rfl

/-- Nat.digitChar of a decimal digit is a digit character. -/
theorem digitChar_isDigitC (d : ℕ) (h : d < 10) : isDigitC (Nat.digitChar d) = true := by
  interval_cases d <;> rfl

/-- Appending one digit multiplies the accumulated value by ten. -/
theorem digitsToNat_append (l : List Char) (c : Char) :
    digitsToNat (l ++ [c]) = 10 * digitsToNat l + (c.toNat - 48) := by
  simp [digitsToNat, List.foldl_append]

/-- natCharsAux prints a faithful decimal rendering whenever enough fuel is
supplied. -/
theorem natCharsAux_val : ∀ (fuel n : ℕ), n ≤ fuel →
    digitsToNat (natCharsAux fuel n) = n := by
  intro fuel
  induction fuel with
  | zero =>
    intro n hn
    interval_cases n
    rfl
  | succ f ih =>
    intro n hn
    cases n with
    | zero => rfl
    | succ m =>
      have hstep : natCharsAux (f + 1) (m + 1) =
          natCharsAux f ((m + 1) / 10) ++ [Nat.digitChar ((m + 1) % 10)] := rfl
      rw [hstep, digitsToNat_append]
      have hdiv : (m + 1) / 10 ≤ f := by
        have := Nat.div_lt_self (Nat.succ_pos m) (by norm_num : 1 < 10)
        omega
      rw [ih ((m + 1) / 10) hdiv]
      rw [digitChar_toNat _ (Nat.mod_lt _ (by norm_num))]
      omega

/-- Every character natCharsAux prints is a digit. -/
theorem natCharsAux_digits : ∀ (fuel n : ℕ), ∀ c ∈ natCharsAux fuel n,
    isDigitC c = true := by
  intro fuel
  induction fuel with
  | zero => intro n c hc; simp [natCharsAux] at hc
  | succ f ih =>
    intro n c hc
    cases n with
    | zero => simp [natCharsAux] at hc
    | succ m =>
      have hstep : natCharsAux (f + 1) (m + 1) =
          natCharsAux f ((m + 1) / 10) ++ [Nat.digitChar ((m + 1) % 10)] := rfl
      rw [hstep] at hc
      rcases List.mem_append.mp hc with hm | hm
      · exact ih ((m + 1) / 10) c hm
      · rw [List.mem_singleton.mp hm]
        exact digitChar_isDigitC _ (Nat.mod_lt _ (by norm_num))

/-- The decimal rendering of n evaluates back to n. -/
theorem natChars_val (n : ℕ) : digitsToNat (natChars n) = n := by
  unfold natChars
  split_ifs with h
  · rw [h]; rfl
  · exact natCharsAux_val n n le_rfl

/-- Every character of the decimal rendering is a digit. -/
theorem natChars_digits (n : ℕ) : ∀ c ∈ natChars n, isDigitC c = true := by
  unfold natChars
  split_ifs with h
  · intro c hc
    rw [List.mem_singleton.mp hc]
    rfl
  · exact natCharsAux_digits n n

/-- The decimal rendering is never empty. -/
theorem natChars_ne_nil (n : ℕ) : natChars n ≠ [] := by
  unfold natChars
  split_ifs with h
  · simp
  · cases n with
    | zero => exact absurd rfl h
    | succ m =>
      have hstep : natCharsAux (m + 1) (m + 1) =
          natCharsAux m ((m + 1) / 10) ++ [Nat.digitChar ((m + 1) % 10)] := rfl
      rw [hstep]
      simp

/-- Leading zero padding does not change the parsed value. -/
theorem foldl_digit_replicate_zero (k : ℕ) :
    List.foldl (fun a c => 10 * a + (c.toNat - 48)) 0
      (List.replicate k (Nat.digitChar 0)) = 0 := by
  induction k with
  | zero => rfl
  | succ j ihj => rw [List.replicate_succ, List.foldl_cons]; simpa using ihj

/-- A zero-padded field parses to the same value as the bare rendering. -/
theorem digitsToNat_pad (w n : ℕ) : digitsToNat (padChars w n) = n := by
  unfold padChars
  have : digitsToNat (List.replicate (w - (natChars n).length) (Nat.digitChar 0) ++
      natChars n) = digitsToNat (natChars n) := by
    simp only [digitsToNat, List.foldl_append, foldl_digit_replicate_zero]
  rw [this, natChars_val]

/-- Every character of a padded field is a digit. -/
theorem padChars_digits (w n : ℕ) : ∀ c ∈ padChars w n, isDigitC c = true := by
  intro c hc
  rcases List.mem_append.mp hc with hm | hm
  · rw [List.eq_of_mem_replicate hm]; rfl
  · exact natChars_digits n c hm

/-- A padded field is never empty. -/
theorem padChars_ne_nil (w n : ℕ) : padChars w n ≠ [] := by
  unfold padChars
  intro hc
  rcases List.append_eq_nil.mp hc with ⟨h1, h2⟩
  exact natChars_ne_nil n h2

/-- Python int() on a nonempty all-digit field returns its decimal value. -/
theorem pyInt_digits (l : List Char) (hne : l ≠ []) (hd : ∀ c ∈ l, isDigitC c = true) :
    pyInt l = some ((digitsToNat l : ℤ)) := by
  cases l with
  | nil => exact absurd rfl hne
  | cons c rest =>
    have hc : isDigitC c = true := hd c (List.mem_cons_self c rest)
    have hminus : (c == '-') = false := by
      cases hcc : c == '-' with
      | false => rfl
      | true =>
        rw [beq_iff_eq] at hcc
        subst hcc
        exact absurd hc (by decide)
    have hplus : (c == '+') = false := by
      cases hcc : c == '+' with
      | false => rfl
      | true =>
        rw [beq_iff_eq] at hcc
        subst hcc
        exact absurd hc (by decide)
    have hall : (c :: rest).all isDigitC = true := List.all_eq_true.mpr hd
    simp [pyInt, hminus, hplus, hall]

/-- Stripping the double quotes off a quoted field whose body holds none. -/
theorem pyStrip_quote_wrap (l : List Char) (hq : ∀ c ∈ l, c ≠ quoteChar) :
    pyStrip quoteChar (quoteChar :: (l ++ [quoteChar])) = l := by
  have hself : ∀ (m : List Char), (∀ c ∈ m, c ≠ quoteChar) →
      List.dropWhile (fun x => decide (x = quoteChar)) m = m := by
    intro m hm
    cases m with
    | nil => rfl
    | cons x xs =>
      rw [List.dropWhile_cons]
      simp [hm x (List.mem_cons_self x xs)]
  cases l with
  | nil => decide
  | cons a as =>
    unfold pyStrip
    rw [List.dropWhile_cons, if_pos (by simp)]
    rw [List.cons_append, List.dropWhile_cons,
      if_neg (by simp [hq a (List.mem_cons_self a as)])]
    rw [← List.cons_append, List.reverse_append]
    have hrev : ([quoteChar] : List Char).reverse = [quoteChar] := rfl
    rw [hrev, List.singleton_append, List.dropWhile_cons, if_pos (by simp)]
    rw [hself ((a :: as).reverse) (fun c hc => hq c (List.mem_reverse.mp hc))]
    exact List.reverse_reverse _

/-- pySplit never returns an empty chunk list. -/
theorem pySplit_ne_nil (sep : Char) : ∀ l : List Char, pySplit sep l ≠ [] := by
  intro l
  cases l with
  | nil => simp [pySplit]
  | cons c rest =>
    simp only [pySplit]
    cases h : pySplit sep rest with
    | nil => simp
    | cons g gs => split_ifs <;> simp

/-- A separator-free text is a single chunk. -/
theorem pySplit_no_sep (sep : Char) : ∀ l : List Char,
    (∀ c ∈ l, c ≠ sep) → pySplit sep l = [l] := by
  intro l
  induction l with
  | nil => intro _; rfl
  | cons c rest ih =>
    intro h
    have hr := ih (fun x hx => h x (List.mem_cons_of_mem c hx))
    simp only [pySplit, hr]
    rw [if_neg (h c (List.mem_cons_self c rest))]

/-- Splitting peels off one separator-free chunk before each separator. -/
theorem pySplit_append (sep : Char) : ∀ (a rest : List Char),
    (∀ c ∈ a, c ≠ sep) →
    pySplit sep (a ++ sep :: rest) = a :: pySplit sep rest := by
  intro a
  induction a with
  | nil =>
    intro rest _
    cases hsplit : pySplit sep rest with
    | nil => exact absurd hsplit (pySplit_ne_nil sep rest)
    | cons g gs => simp [pySplit, hsplit]
  | cons c a2 ih =>
    intro rest h
    rw [List.cons_append]
    simp only [pySplit]
    rw [ih rest (fun x hx => h x (List.mem_cons_of_mem c hx))]
    show (if c = sep then [] :: a2 :: pySplit sep rest
      else (c :: a2) :: pySplit sep rest) = (c :: a2) :: pySplit sep rest
    rw [if_neg (h c (List.mem_cons_self c a2))]

/-- A digit character is not a double quote. -/
theorem digit_ne_quote {c : Char} (hc : isDigitC c = true) : c ≠ quoteChar := by
  intro he
  subst he
  exact absurd hc (by decide)

/-- A digit character is not a slash. -/
theorem digit_ne_slash {c : Char} (hc : isDigitC c = true) : c ≠ '/' := by
  intro he
  subst he
  exact absurd hc (by decide)

/-- C9: encoding a valid calendar date with the setter's strftime pattern
(the quoted wire text month/day/year) and decoding the produced text with
to_date yields the original date. -/
theorem date_round_trip (d : PyDate) (h : validDate d) :
    to_date (strftimeDate d) = Except.ok d := by
  obtain ⟨y, m, dd⟩ := d
  obtain ⟨hy1, hy2, hm1, hm2, hd1, hd2⟩ := h
  have hinner : ∀ c ∈ padChars 2 m ++ '/' :: (padChars 2 dd ++ '/' :: padChars 4 y),
      c ≠ quoteChar := by
    intro c hc
    rcases List.mem_append.mp hc with h1 | h1
    · exact digit_ne_quote (padChars_digits 2 m c h1)
    · rcases List.mem_cons.mp h1 with rfl | h2
      · decide
      · rcases List.mem_append.mp h2 with h3 | h3
        · exact digit_ne_quote (padChars_digits 2 dd c h3)
        · rcases List.mem_cons.mp h3 with rfl | h4
          · decide
          · exact digit_ne_quote (padChars_digits 4 y c h4)
  have hdata : (strftimeDate (PyDate.mk y m dd)).data =
      quoteChar :: ((padChars 2 m ++ '/' :: (padChars 2 dd ++ '/' :: padChars 4 y)) ++
        [quoteChar]) := by
    simp [strftimeDate]
  have e1 : pyStrip quoteChar (strftimeDate (PyDate.mk y m dd)).data =
      padChars 2 m ++ '/' :: (padChars 2 dd ++ '/' :: padChars 4 y) := by
    rw [hdata]
    exact pyStrip_quote_wrap _ hinner
  have e2 : pySplit '/' (pyStrip quoteChar (strftimeDate (PyDate.mk y m dd)).data) =
      [padChars 2 m, padChars 2 dd, padChars 4 y] := by
    rw [e1]
    rw [pySplit_append '/' (padChars 2 m) _
      (fun c hc => digit_ne_slash (padChars_digits 2 m c hc))]
    rw [pySplit_append '/' (padChars 2 dd) _
      (fun c hc => digit_ne_slash (padChars_digits 2 dd c hc))]
    rw [pySplit_no_sep '/' (padChars 4 y)
      (fun c hc => digit_ne_slash (padChars_digits 4 y c hc))]
  have e3 : (pySplit '/' (pyStrip quoteChar (strftimeDate (PyDate.mk y m dd)).data)).map
      pyInt = [some (m : ℤ), some (dd : ℤ), some (y : ℤ)] := by
    rw [e2]
    simp only [List.map_cons, List.map_nil]
    rw [pyInt_digits _ (padChars_ne_nil 2 m) (padChars_digits 2 m),
      pyInt_digits _ (padChars_ne_nil 2 dd) (padChars_digits 2 dd),
      pyInt_digits _ (padChars_ne_nil 4 y) (padChars_digits 4 y),
      digitsToNat_pad, digitsToNat_pad, digitsToNat_pad]
  unfold to_date
  rw [e3]
  show mkDate (y : ℤ) (m : ℤ) (dd : ℤ) = Except.ok (PyDate.mk y m dd)
  unfold mkDate
  rw [if_pos]
  · simp
  · refine ⟨by exact_mod_cast hy1, by exact_mod_cast hy2, by exact_mod_cast hm1,
      by exact_mod_cast hm2, by exact_mod_cast hd1, ?_⟩
    rw [Int.toNat_natCast, Int.toNat_natCast]
    exact_mod_cast hd2

/-- C9 witness: the round trip at the concrete date 2024-03-07, whose encoded
wire text is the quoted 03/07/2024. -/
theorem date_round_trip_witness :
    validDate (PyDate.mk 2024 3 7) ∧
    to_date (strftimeDate (PyDate.mk 2024 3 7)) = Except.ok (PyDate.mk 2024 3 7) :=
  ⟨by decide, date_round_trip (PyDate.mk 2024 3 7) (by decide)⟩
